import Mathlib

/-!
Verification development for the flight-search API-access mediation layer
(`src/lib/api.ts` of the repository): cache manager, quota tracker, token
manager, data synthesizer and the mediator operations, shallowly embedded
as pure Lean functions.  Times are epoch milliseconds as `Nat`; JavaScript
`Math.random()` draws are modelled as a stream `Nat → ℚ` of values that the
`Math.random` contract keeps in `[0, 1)`; fallible operations return
`Except`.
-/

namespace FlightSearch

/-! ### Cache manager (`APICacheManager`)

`set` stores `{data, timestamp: Date.now(), expiry: expiryHours*60*60*1000}`
under a namespaced key; `get` returns the data unless
`Date.now() - timestamp > expiry`, in which case it removes the entry and
returns `null`.  The store is modelled as a partial map from string keys. -/

structure APICache (T : Type) where
  data : T
  timestamp : Nat
  expiry : Nat

def CacheStore (T : Type) := String → Option (APICache T)

def cacheNamespace : String := "flight_cache_"

def cacheSet {T : Type} (store : CacheStore T) (key : String) (data : T)
    (expiryHours : Nat) (now : Nat) : CacheStore T :=
  fun k =>
    if k = cacheNamespace ++ key then
      some ⟨data, now, expiryHours * 60 * 60 * 1000⟩
    else store k

def cacheGet {T : Type} (store : CacheStore T) (key : String) (now : Nat) :
    CacheStore T × Option T :=
  match store (cacheNamespace ++ key) with
  | none => (store, none)
  | some c =>
    if now - c.timestamp > c.expiry then
      (fun k => if k = cacheNamespace ++ key then none else store k, none)
    else (store, some c.data)

/-! ### Quota tracker (`APIRateLimiter`)

`canMakeCall` first resets the rolling window when more than 60 000 ms have
passed since `minuteStart`, then checks the per-minute ceiling (10), then the
per-day ceiling (39); `recordCall` increments both counters (and persists
them, a side effect on the store that the state transition itself captures). -/

def MAX_CALLS_PER_MINUTE : Nat := 10

def MAX_CALLS_PER_DAY : Nat := 39

structure RLState where
  callsToday : Nat
  callsThisMinute : Nat
  minuteStart : Nat
deriving DecidableEq

inductive RLDecision where
  | allowed (callsLeft : Nat)
  | deniedRate (waitSeconds : Nat)
  | deniedDaily
deriving DecidableEq

def RLDecision.isAllowed : RLDecision → Bool
  | .allowed _ => true
  | _ => false

/-- The window-reset prelude of `canMakeCall`: when more than 60 000 ms have
passed since `minuteStart`, zero `callsThisMinute` and restart the window. -/
def rlReset (now : Nat) (s : RLState) : RLState :=
  if 60000 < now - s.minuteStart then
    { s with callsThisMinute := 0, minuteStart := now }
  else s

/-- The decision part of `canMakeCall`, applied to the post-reset state. -/
def rlDecide (now : Nat) (s' : RLState) : RLDecision :=
  if MAX_CALLS_PER_MINUTE ≤ s'.callsThisMinute then
    .deniedRate ((60000 - (now - s'.minuteStart) + 999) / 1000)
  else if MAX_CALLS_PER_DAY ≤ s'.callsToday then
    .deniedDaily
  else
    .allowed (MAX_CALLS_PER_DAY - s'.callsToday)

def canMakeCall (now : Nat) (s : RLState) : RLState × RLDecision :=
  (rlReset now s, rlDecide now (rlReset now s))

def recordCall (s : RLState) : RLState :=
  { s with callsToday := s.callsToday + 1, callsThisMinute := s.callsThisMinute + 1 }

def resetDailyCount (now : Nat) : RLState := ⟨0, 0, now⟩

/-- One admission attempt at time `now`: `canMakeCall`, then `recordCall`
exactly when the check allowed the call. -/
def rlStep (s : RLState) (now : Nat) : RLState × Bool :=
  if ((canMakeCall now s).2).isAllowed then (recordCall (canMakeCall now s).1, true)
  else ((canMakeCall now s).1, false)

/-- Run a sequence of admission attempts; returns the final state and the
number of admitted calls. -/
def rlRun : RLState → List Nat → RLState × Nat
  | s, [] => (s, 0)
  | s, t :: rest =>
    ((rlRun (rlStep s t).1 rest).1,
     (if (rlStep s t).2 then 1 else 0) + (rlRun (rlStep s t).1 rest).2)

lemma rlReset_callsToday (now : Nat) (s : RLState) :
    (rlReset now s).callsToday = s.callsToday := by
  unfold rlReset; split <;> rfl

lemma rlReset_of_le (now : Nat) (s : RLState) (h : ¬ 60000 < now - s.minuteStart) :
    rlReset now s = s := by
  unfold rlReset; simp [h]

lemma rlDecide_allowed_iff (now : Nat) (s' : RLState) :
    (rlDecide now s').isAllowed = true ↔
      s'.callsThisMinute < MAX_CALLS_PER_MINUTE ∧ s'.callsToday < MAX_CALLS_PER_DAY := by
  unfold rlDecide
  split
  · simp only [RLDecision.isAllowed]
    constructor
    · intro h; cases h
    · intro h; omega
  · split
    · simp only [RLDecision.isAllowed]
      constructor
      · intro h; cases h
      · intro h; omega
    · simp only [RLDecision.isAllowed]
      constructor
      · intro _; omega
      · intro _; trivial

lemma rlStep_callsToday (s : RLState) (t : Nat) :
    (rlStep s t).1.callsToday = s.callsToday + (if (rlStep s t).2 then 1 else 0) := by
  unfold rlStep canMakeCall
  split
  · simp [recordCall, rlReset_callsToday]
  · simp [rlReset_callsToday]

lemma rlStep_admitted_bound (s : RLState) (t : Nat) :
    (rlStep s t).2 = true → s.callsToday < MAX_CALLS_PER_DAY := by
  unfold rlStep canMakeCall
  split
  · intro _
    have h := (rlDecide_allowed_iff t (rlReset t s)).1 (by assumption)
    rw [rlReset_callsToday] at h
    exact h.2
  · intro h; cases h

lemma rlRun_callsToday (s : RLState) (ts : List Nat) :
    (rlRun s ts).1.callsToday = s.callsToday + (rlRun s ts).2 := by
  induction ts generalizing s with
  | nil => simp [rlRun]
  | cons t rest ih =>
    show (rlRun (rlStep s t).1 rest).1.callsToday
        = s.callsToday + ((if (rlStep s t).2 then 1 else 0) + (rlRun (rlStep s t).1 rest).2)
    rw [ih, rlStep_callsToday]
    omega

lemma rlStep_callsToday_le (s : RLState) (t : Nat) :
    (rlStep s t).1.callsToday ≤ max s.callsToday MAX_CALLS_PER_DAY := by
  by_cases h : (rlStep s t).2 = true
  · have h1 := rlStep_admitted_bound s t h
    have h2 := rlStep_callsToday s t
    rw [h] at h2
    simp only [if_true] at h2
    omega
  · have h2 := rlStep_callsToday s t
    rw [eq_false_of_ne_true h] at h2
    simp only [Bool.false_eq_true, if_false] at h2
    omega

lemma rlRun_daily (s : RLState) (ts : List Nat) :
    (rlRun s ts).1.callsToday ≤ max s.callsToday MAX_CALLS_PER_DAY := by
  induction ts generalizing s with
  | nil => simp [rlRun]
  | cons t rest ih =>
    show (rlRun (rlStep s t).1 rest).1.callsToday ≤ _
    refine le_trans (ih _) ?_
    have := rlStep_callsToday_le s t
    simp only [MAX_CALLS_PER_DAY] at *
    omega

/-- Per-window admission bound: if every attempt happens no later than
60 000 ms after the current window start (so the window never resets), the
number of admissions is at most `10 - callsThisMinute`. -/
lemma rlRun_window (s : RLState) (ts : List Nat)
    (h : ∀ t ∈ ts, t ≤ s.minuteStart + 60000) :
    (rlRun s ts).2 ≤ MAX_CALLS_PER_MINUTE - s.callsThisMinute := by
  induction ts generalizing s with
  | nil => simp [rlRun]
  | cons t rest ih =>
    have ht : t ≤ s.minuteStart + 60000 := h t (by simp)
    have hrest : ∀ u ∈ rest, u ≤ s.minuteStart + 60000 := fun u hu => h u (by simp [hu])
    have hnores : ¬ 60000 < t - s.minuteStart := by omega
    have hres : rlReset t s = s := rlReset_of_le t s hnores
    show (if (rlStep s t).2 then 1 else 0) + (rlRun (rlStep s t).1 rest).2 ≤ _
    by_cases hall : (rlDecide t s).isAllowed = true
    · have hstep : rlStep s t = (recordCall s, true) := by
        unfold rlStep canMakeCall
        rw [hres, hall]
        simp
      rw [hstep]
      have hcm := ((rlDecide_allowed_iff t s).1 hall).1
      have hrest' : ∀ u ∈ rest, u ≤ (recordCall s).minuteStart + 60000 := by
        simpa [recordCall] using hrest
      have hih := ih (recordCall s) hrest'
      have hcm2 : (recordCall s).callsThisMinute = s.callsThisMinute + 1 := rfl
      simp only [if_true]
      simp only [MAX_CALLS_PER_MINUTE] at *
      omega
    · have hstep : rlStep s t = (s, false) := by
        unfold rlStep canMakeCall
        rw [hres, eq_false_of_ne_true hall]
        simp
      rw [hstep]
      simpa using ih s hrest

/-! ### Error and effect taxonomy

The code distinguishes axios-raised (transport/HTTP) errors, checked with
`axios.isAxiosError`, from plain JavaScript `Error` values; every `catch`
block branches on that test.  `Event` records the externally visible side
effects an operation performs, in order: a quota `recordCall` (which also
persists the counters), a network call to a named endpoint, a cache write. -/

inductive JsError where
  | axiosError (status : Option Nat)
  | genericError (msg : String)
deriving DecidableEq

def JsError.isAxiosError : JsError → Bool
  | .axiosError _ => true
  | .genericError _ => false

inductive Endpoint where
  | tokenExchange
  | flightDestinations
  | flightDates
  | locations
  | flightOffers
deriving DecidableEq

inductive Event where
  | recordCallEvent
  | networkCall (e : Endpoint)
  | cacheWrite (key : String)
deriving DecidableEq

/-! ### Token manager (`getAmadeusToken`)

A module-level `tokenInfo` is reused while `Date.now() < expiresAt`;
otherwise a credential exchange is attempted.  On success the code stores
`expiresAt = Date.now() + 25 * 60 * 1000` (a fixed 25 minutes, ignoring the
lifetime granted in the response).  On failure, or when the response carries
no `access_token`, the catch block rethrows a plain
`Error("Failed to authenticate with Amadeus API")` — never an axios error. -/

structure TokenInfo where
  accessToken : String
  expiresAt : Nat
deriving DecidableEq

/-- The token endpoint's response: the optional `access_token` field the code
reads, and the granted lifetime (milliseconds) that the code never reads. -/
structure TokenResponse where
  access_token : Option String
  expires_in : Nat
deriving DecidableEq

structure TokenResult where
  result : Except JsError String
  tokenInfo : Option TokenInfo
  events : List Event

/-- The credential-exchange path of `getAmadeusToken` (the `try` block after
the cached-token check failed). -/
def tokenFetch (tok : Option TokenInfo) (now : Nat)
    (exchange : Except JsError TokenResponse) : TokenResult :=
  match exchange with
  | .ok resp =>
    match resp.access_token with
    | some tk => ⟨.ok tk, some ⟨tk, now + 25 * 60 * 1000⟩, [.networkCall .tokenExchange]⟩
    | none => ⟨.error (.genericError "Failed to authenticate with Amadeus API"), tok,
        [.networkCall .tokenExchange]⟩
  | .error _ => ⟨.error (.genericError "Failed to authenticate with Amadeus API"), tok,
      [.networkCall .tokenExchange]⟩

def getAmadeusToken (tok : Option TokenInfo) (now : Nat)
    (exchange : Except JsError TokenResponse) : TokenResult :=
  match tok with
  | some t => if now < t.expiresAt then ⟨.ok t.accessToken, some t, []⟩
      else tokenFetch (some t) now exchange
  | none => tokenFetch none now exchange

/-! ### Randomness and JavaScript numeric helpers

`Math.random()` draws are a stream `rnd : Nat → ℚ`; the `Math.random`
contract keeps every draw in `[0, 1)` (`ValidRnd`).  `Math.round` and
`Math.floor` on the non-negative values that arise here are `⌊q + 1/2⌋` and
`⌊q⌋`. -/

def ValidRnd (rnd : Nat → ℚ) : Prop := ∀ i, 0 ≤ rnd i ∧ rnd i < 1

def jsRound (q : ℚ) : ℤ := ⌊q + 1/2⌋

def jsFloor (q : ℚ) : ℤ := ⌊q⌋

/-! ### Fixed rosters (`MOCK_AIRLINES`, `MOCK_AIRPORTS`, hubs, aircraft) -/

structure Airline where
  code : String
  name : String
  logo : String
deriving DecidableEq

def MOCK_AIRLINES : List Airline :=
  [⟨"AA", "American Airlines", "AA"⟩,
   ⟨"DL", "Delta Air Lines", "DL"⟩,
   ⟨"UA", "United Airlines", "UA"⟩,
   ⟨"WN", "Southwest Airlines", "WN"⟩,
   ⟨"B6", "JetBlue", "B6"⟩,
   ⟨"AS", "Alaska Airlines", "AS"⟩,
   ⟨"BA", "British Airways", "BA"⟩,
   ⟨"LH", "Lufthansa", "LH"⟩,
   ⟨"AF", "Air France", "AF"⟩,
   ⟨"EK", "Emirates", "EK"⟩]

structure Airport where
  code : String
  name : String
  city : String
deriving DecidableEq

def MOCK_AIRPORTS : List Airport :=
  [⟨"JFK", "John F. Kennedy International", "New York"⟩,
   ⟨"LAX", "Los Angeles International", "Los Angeles"⟩,
   ⟨"ORD", "O\x27Hare International", "Chicago"⟩,
   ⟨"DFW", "Dallas/Fort Worth International", "Dallas"⟩,
   ⟨"MIA", "Miami International", "Miami"⟩,
   ⟨"SEA", "Seattle–Tacoma International", "Seattle"⟩,
   ⟨"ATL", "Hartsfield-Jackson Atlanta", "Atlanta"⟩,
   ⟨"DEN", "Denver International", "Denver"⟩,
   ⟨"SFO", "San Francisco International", "San Francisco"⟩,
   ⟨"LAS", "Harry Reid International", "Las Vegas"⟩,
   ⟨"LHR", "Heathrow Airport", "London"⟩,
   ⟨"CDG", "Charles de Gaulle Airport", "Paris"⟩,
   ⟨"FRA", "Frankfurt Airport", "Frankfurt"⟩,
   ⟨"DXB", "Dubai International", "Dubai"⟩]

def commonHubs : List String := ["ATL", "ORD", "DFW", "DEN", "LAX", "JFK", "MIA", "SEA"]

def aircraftRoster : List String :=
  ["Boeing 737", "Airbus A320", "Boeing 787", "Airbus A350",
   "Boeing 777", "Airbus A330", "Embraer E190", "Bombardier CRJ900"]

def defaultAirline : Airline := ⟨"AA", "American Airlines", "AA"⟩

/-! ### Data synthesizer (`generateEnhancedMockFlights` and helpers)

Departure and arrival times are carried as numeric (hour, minute) pairs; the
code renders them as zero-padded `"HH:MM"` strings (`timeText` below).
Arrival components come from `calculateArrivalTime`, which receives only the
departure *hour* and the duration.  JavaScript `%` is truncated remainder
(`Int.tmod`) and `Math.floor` division of integers is `Int.fdiv`. -/

structure StopDetail where
  airport : String
  duration : Nat
deriving DecidableEq

structure Flight where
  id : String
  airline : String
  airlineLogo : String
  flightNumber : String
  origin : String
  destination : String
  depHour : Nat
  depMinute : Nat
  arrHour : ℤ
  arrMinute : ℤ
  duration : ℤ
  price : ℤ
  stops : Nat
  stopDetails : Option (List StopDetail)
  aircraft : String
deriving DecidableEq

def pad2 (n : Nat) : String := if n < 10 then "0" ++ toString n else toString n

/-- Rendering of the numeric time pair as the code's `"HH:MM"` string. -/
def timeText (h m : Nat) : String := pad2 h ++ ":" ++ pad2 m

def calculateArrivalTime (departureHour : Nat) (durationMinutes : ℤ) : ℤ × ℤ :=
  ((((departureHour : ℤ) * 60 + durationMinutes).fdiv 60).tmod 24,
   ((departureHour : ℤ) * 60 + durationMinutes).tmod 60)

def calculateRealisticDuration (r : ℚ) (stops : Nat) : ℤ :=
  jsRound ((90 + r * 300) + (stops : ℚ) * 120)

def generateStopDetailsLoop (rnd : Nat → ℚ) : Nat → Nat → List StopDetail × Nat
  | 0, k => ([], k)
  | n + 1, k =>
    let airport := commonHubs.getD (jsFloor (rnd k * 8)).toNat "ATL"
    let dur := 60 + (jsFloor (rnd (k + 1) * 120)).toNat
    let rest := generateStopDetailsLoop rnd n (k + 2)
    (⟨airport, dur⟩ :: rest.1, rest.2)

def getRandomAircraft (r : ℚ) : String :=
  aircraftRoster.getD (jsFloor (r * 8)).toNat "Boeing 737"

/-- The stop-count draw `Math.random() > 0.6 ? 1 : Math.random() > 0.85 ? 2 : 0`
starting at stream index `k + 1`; returns the stop count and the next free
stream index. -/
def pickStops (rnd : Nat → ℚ) (k : Nat) : Nat × Nat :=
  if rnd (k + 1) > 3/5 then (1, k + 2)
  else if rnd (k + 2) > 17/20 then (2, k + 3) else (0, k + 3)

/-- The airline drawn at stream index `k` (the first draw of an iteration). -/
def flightAirline (rnd : Nat → ℚ) (k : Nat) : Airline :=
  MOCK_AIRLINES.getD (jsFloor (rnd k * 10)).toNat defaultAirline

/-- Departure hour `6 + Math.floor(Math.random()*16)`, drawn right after the
stop count. -/
def flightDepHour (rnd : Nat → ℚ) (k : Nat) : Nat :=
  6 + (jsFloor (rnd (pickStops rnd k).2 * 16)).toNat

def flightDuration (rnd : Nat → ℚ) (k : Nat) : ℤ :=
  calculateRealisticDuration (rnd ((pickStops rnd k).2 + 1)) (pickStops rnd k).1

/-- The stop-details output and the stream index after it (aircraft is drawn
next). -/
def stopDetailsOut (rnd : Nat → ℚ) (k : Nat) : Option (List StopDetail) × Nat :=
  if 0 < (pickStops rnd k).1 then
    (some (generateStopDetailsLoop rnd (pickStops rnd k).1 ((pickStops rnd k).2 + 5)).1,
     (generateStopDetailsLoop rnd (pickStops rnd k).1 ((pickStops rnd k).2 + 5)).2)
  else (none, (pickStops rnd k).2 + 5)

/-- One iteration of the generation loop, consuming draws in the code's
evaluation order (airline, stop count, departure hour, duration draw, price
variation, flight number, departure minute, stop details, aircraft); returns
the flight and the next stream index. -/
def genOneFlight (rnd : Nat → ℚ) (k : Nat) (now : Nat) (origin destination : String)
    (actualBasePrice : ℚ) (i : Nat) : Flight × Nat :=
  (⟨"ENHANCED-" ++ toString now ++ "-" ++ toString i,
    (flightAirline rnd k).name,
    (flightAirline rnd k).logo,
    (flightAirline rnd k).code
      ++ toString (jsFloor (100 + rnd ((pickStops rnd k).2 + 3) * 900)).toNat,
    origin, destination,
    flightDepHour rnd k,
    (if rnd ((pickStops rnd k).2 + 4) > 1/2 then 0 else 30),
    (calculateArrivalTime (flightDepHour rnd k) (flightDuration rnd k)).1,
    (calculateArrivalTime (flightDepHour rnd k) (flightDuration rnd k)).2,
    flightDuration rnd k,
    jsRound (actualBasePrice * (3/4 + rnd ((pickStops rnd k).2 + 2) * (1/2))),
    (pickStops rnd k).1,
    (stopDetailsOut rnd k).1,
    getRandomAircraft (rnd (stopDetailsOut rnd k).2)⟩,
   (stopDetailsOut rnd k).2 + 1)

def genFlightsLoop (rnd : Nat → ℚ) (now : Nat) (origin destination : String) (base : ℚ) :
    Nat → Nat → Nat → List Flight × Nat
  | _, 0, k => ([], k)
  | i, n + 1, k =>
    let p := genOneFlight rnd k now origin destination base i
    let rest := genFlightsLoop rnd now origin destination base (i + 1) n p.2
    (p.1 :: rest.1, rest.2)

def Flight.priceLE (a b : Flight) : Prop := a.price ≤ b.price

instance : DecidableRel Flight.priceLE :=
  fun a b => inferInstanceAs (Decidable (a.price ≤ b.price))

instance : IsTotal Flight Flight.priceLE := ⟨fun a b => le_total a.price b.price⟩

instance : IsTrans Flight Flight.priceLE := ⟨fun _ _ _ h h' => le_trans h h'⟩

/-- JavaScript `basePrice || 200 + Math.random()*800`: falls through to the
random default when `basePrice` is `undefined` (here `none`) or the falsy
`0`; returns the actual base price and the next free stream index. -/
def mockBase (rnd : Nat → ℚ) (k : Nat) (basePrice : Option ℚ) : ℚ × Nat :=
  match basePrice with
  | some b => if b = 0 then (200 + rnd k * 800, k + 1) else (b, k)
  | none => (200 + rnd k * 800, k + 1)

/-- `generateEnhancedMockFlights`: the count is `12 + Math.floor(Math.random()*6)`;
the result is sorted ascending by price (`sort((a, b) => a.price - b.price)`). -/
def generateEnhancedMockFlights (rnd : Nat → ℚ) (k : Nat) (now : Nat)
    (origin destination : String) (basePrice : Option ℚ) : List Flight × Nat :=
  ((genFlightsLoop rnd now origin destination (mockBase rnd k basePrice).1 0
      (12 + (jsFloor (rnd (mockBase rnd k basePrice).2 * 6)).toNat)
      ((mockBase rnd k basePrice).2 + 1)).1.insertionSort Flight.priceLE,
   (genFlightsLoop rnd now origin destination (mockBase rnd k basePrice).1 0
      (12 + (jsFloor (rnd (mockBase rnd k basePrice).2 * 6)).toNat)
      ((mockBase rnd k basePrice).2 + 1)).2)

/-! ### Remaining mock generators

`getMockPriceTrendsForRoute` emits 7 consecutive dates starting today with
price `Math.round(300 * (0.8 + Math.random()*0.4))`; dates are carried as a
numeric day index (the code renders `today + i` days as an ISO date string).
`getMockInspirationData` filters a fixed destination table by
`basePrice <= maxPrice` and prices each at `toFixed(2)` of
`basePrice + Math.random()*50`.  `getMockAirportSuggestions` filters the
fixed roster by case-insensitive substring match on code, city or name and
caps the result at 8. -/

structure PriceDataPoint where
  date : Nat
  price : ℚ
  airline : String
deriving DecidableEq

def mockTrendsLoop (rnd : Nat → ℚ) (today : Nat) : Nat → Nat → Nat → List PriceDataPoint × Nat
  | _, 0, k => ([], k)
  | i, n + 1, k =>
    let fluctuation := 4/5 + rnd k * (2/5)
    let price : ℚ := (jsRound (300 * fluctuation) : ℤ)
    let airline := (MOCK_AIRLINES.getD (jsFloor (rnd (k + 1) * 10)).toNat defaultAirline).name
    let rest := mockTrendsLoop rnd today (i + 1) n (k + 2)
    (⟨today + i, price, airline⟩ :: rest.1, rest.2)

def getMockPriceTrendsForRoute (rnd : Nat → ℚ) (k : Nat) (today : Nat)
    (origin destination : String) : List PriceDataPoint × Nat :=
  mockTrendsLoop rnd today 0 7 k

structure DestinationOffer where
  origin : String
  destination : String
  departureDate : Nat
  returnDate : Option Nat
  priceTotal : ℚ
deriving DecidableEq

structure InspirationPayload where
  data : List DestinationOffer
  metaCount : Nat
deriving DecidableEq

def mockDestinationTable : List (String × String × ℚ) :=
  [("LAX", "Los Angeles", 280), ("ORD", "Chicago", 220), ("MIA", "Miami", 190),
   ("SEA", "Seattle", 320), ("DEN", "Denver", 250), ("ATL", "Atlanta", 210),
   ("DFW", "Dallas", 230), ("SFO", "San Francisco", 350), ("LHR", "London", 550),
   ("CDG", "Paris", 520)]

def mockInspirationLoop (rnd : Nat → ℚ) (origin : String) (now : Nat) (oneWay : Bool) :
    List (String × String × ℚ) → Nat → List DestinationOffer × Nat
  | [], k => ([], k)
  | d :: rest, k =>
    let dep := now + 7 * 24 * 60 * 60 * 1000
    let ret : Option Nat := if oneWay then none else some (dep + 7 * 24 * 60 * 60 * 1000)
    let total : ℚ := ((jsRound ((d.2.2 + rnd k * 50) * 100) : ℤ) : ℚ) / 100
    let others := mockInspirationLoop rnd origin now oneWay rest (k + 1)
    (⟨origin, d.1, dep, ret, total⟩ :: others.1, others.2)

def getMockInspirationData (rnd : Nat → ℚ) (k : Nat) (origin : String) (maxPrice : ℚ)
    (oneWay : Bool) (now : Nat) : InspirationPayload × Nat :=
  let p := mockInspirationLoop rnd origin now oneWay
    (mockDestinationTable.filter (fun d => d.2.2 ≤ maxPrice)) k
  (⟨p.1, p.1.length⟩, p.2)

/-- Substring containment on character lists (JavaScript `String.includes`). -/
def charsStartWith : List Char → List Char → Bool
  | _, [] => true
  | [], _ :: _ => false
  | a :: as, b :: bs => a = b && charsStartWith as bs

def charsContain : List Char → List Char → Bool
  | [], needle => needle.isEmpty
  | a :: as, needle => charsStartWith (a :: as) needle || charsContain as needle

def strIncludes (s sub : String) : Bool := charsContain s.toList sub.toList

def airportMatches (query : String) (a : Airport) : Bool :=
  strIncludes a.code.toLower query.toLower || strIncludes a.city.toLower query.toLower ||
    strIncludes a.name.toLower query.toLower

def getMockAirportSuggestions (query : String) : List Airport :=
  if query = "" then []
  else (MOCK_AIRPORTS.filter (airportMatches query)).take 8

/-! ### Access mediator (`FlightAPI` operations)

Each operation is a pure function of an `Env` — the outcomes the outside
world would supply during the call (configuration flag, clock, random
stream, token-endpoint and data-endpoint responses) — a mediator state
(quota counters, in-memory token, next random index) and the value that the
cache lookup for the operation's key returned (`none` = miss).  It returns
the operation's result (`Except` models a thrown error), the new state and
the ordered list of side effects. -/

structure RawLocation where
  iataCode : String
  name : String
  cityName : String
deriving DecidableEq

structure DateItem where
  departureDate : Nat
  priceTotal : Option ℚ
deriving DecidableEq

structure Env where
  mockMode : Bool
  now : Nat
  rnd : Nat → ℚ
  exchange : Except JsError TokenResponse
  inspirationResp : Except JsError InspirationPayload
  datesResp : Except JsError (Option (List DateItem))
  locationsResp : Except JsError (Option (List RawLocation))

structure MState where
  quota : RLState
  tokenInfo : Option TokenInfo
  k : Nat
deriving DecidableEq

structure OpOut (α : Type) where
  result : Except JsError α
  state : MState
  events : List Event

def PriceDataPoint.dateLE (a b : PriceDataPoint) : Prop := a.date ≤ b.date

instance : DecidableRel PriceDataPoint.dateLE :=
  fun a b => inferInstanceAs (Decidable (a.date ≤ b.date))

instance : IsTotal PriceDataPoint PriceDataPoint.dateLE := ⟨fun a b => le_total a.date b.date⟩

instance : IsTrans PriceDataPoint PriceDataPoint.dateLE := ⟨fun _ _ _ h h' => le_trans h h'⟩

/-- `FlightAPI.getFlightInspiration`: cache → mock mode → rate limit → `try`
(record call, token, live call) with the catch block falling back to mock
data only for axios errors and rethrowing everything else. -/
def getFlightInspiration (env : Env) (st : MState) (cached : Option InspirationPayload)
    (origin : String) (maxPrice : ℚ) (oneWay : Bool) : OpOut InspirationPayload :=
  match cached with
  | some c => ⟨.ok c, st, []⟩
  | none =>
    if env.mockMode then
      let p := getMockInspirationData env.rnd st.k origin maxPrice oneWay env.now
      ⟨.ok p.1, { st with k := p.2 }, []⟩
    else
      let q1 := (canMakeCall env.now st.quota).1
      if ((canMakeCall env.now st.quota).2).isAllowed = false then
        let p := getMockInspirationData env.rnd st.k origin maxPrice oneWay env.now
        ⟨.ok p.1, { st with quota := q1, k := p.2 }, []⟩
      else
        let q2 := recordCall q1
        let ev0 := Event.recordCallEvent :: (getAmadeusToken st.tokenInfo env.now env.exchange).events
        match (getAmadeusToken st.tokenInfo env.now env.exchange).result with
        | .error e =>
          if e.isAxiosError then
            let p := getMockInspirationData env.rnd st.k origin maxPrice oneWay env.now
            ⟨.ok p.1, ⟨q2, (getAmadeusToken st.tokenInfo env.now env.exchange).tokenInfo, p.2⟩, ev0⟩
          else ⟨.error e, ⟨q2, (getAmadeusToken st.tokenInfo env.now env.exchange).tokenInfo, st.k⟩, ev0⟩
        | .ok _ =>
          match env.inspirationResp with
          | .ok payload =>
            ⟨.ok payload, ⟨q2, (getAmadeusToken st.tokenInfo env.now env.exchange).tokenInfo, st.k⟩,
             ev0 ++ [.networkCall .flightDestinations,
               .cacheWrite ("inspiration_" ++ origin ++ "_" ++ toString maxPrice ++ "_"
                 ++ toString oneWay)]⟩
          | .error e =>
            if e.isAxiosError then
              let p := getMockInspirationData env.rnd st.k origin maxPrice oneWay env.now
              ⟨.ok p.1, ⟨q2, (getAmadeusToken st.tokenInfo env.now env.exchange).tokenInfo, p.2⟩, ev0 ++ [.networkCall .flightDestinations]⟩
            else ⟨.error e, ⟨q2, (getAmadeusToken st.tokenInfo env.now env.exchange).tokenInfo, st.k⟩,
              ev0 ++ [.networkCall .flightDestinations]⟩

/-- `FlightAPI.getFlightCheapestDates`: same-route short-circuit → cache →
mock mode → rate limit → `try` (record call, token, live call, transform,
sort by date, cache for 168 h), catch falling back to mock trends only for
axios errors. -/
def getFlightCheapestDates (env : Env) (st : MState) (cached : Option (List PriceDataPoint))
    (origin destination : String) (oneWay : Bool) : OpOut (List PriceDataPoint) :=
  if origin = destination then
    let p := getMockPriceTrendsForRoute env.rnd st.k env.now origin destination
    ⟨.ok p.1, { st with k := p.2 }, []⟩
  else
    match cached with
    | some c => ⟨.ok c, st, []⟩
    | none =>
      if env.mockMode then
        let p := getMockPriceTrendsForRoute env.rnd st.k env.now origin destination
        ⟨.ok p.1, { st with k := p.2 }, []⟩
      else
        let q1 := (canMakeCall env.now st.quota).1
        if ((canMakeCall env.now st.quota).2).isAllowed = false then
          let p := getMockPriceTrendsForRoute env.rnd st.k env.now origin destination
          ⟨.ok p.1, { st with quota := q1, k := p.2 }, []⟩
        else
          let q2 := recordCall q1
          let ev0 := Event.recordCallEvent :: (getAmadeusToken st.tokenInfo env.now env.exchange).events
          match (getAmadeusToken st.tokenInfo env.now env.exchange).result with
          | .error e =>
            if e.isAxiosError then
              let p := getMockPriceTrendsForRoute env.rnd st.k env.now origin destination
              ⟨.ok p.1, ⟨q2, (getAmadeusToken st.tokenInfo env.now env.exchange).tokenInfo, p.2⟩, ev0⟩
            else ⟨.error e, ⟨q2, (getAmadeusToken st.tokenInfo env.now env.exchange).tokenInfo, st.k⟩, ev0⟩
          | .ok _ =>
            match env.datesResp with
            | .ok (some items) =>
              let trends := (items.filterMap fun it =>
                  it.priceTotal.map fun pr => PriceDataPoint.mk it.departureDate pr "Various")
              ⟨.ok (trends.insertionSort PriceDataPoint.dateLE), ⟨q2, (getAmadeusToken st.tokenInfo env.now env.exchange).tokenInfo, st.k⟩,
               ev0 ++ [.networkCall .flightDates,
                 .cacheWrite ("cheapest_dates_" ++ origin ++ "_" ++ destination ++ "_"
                   ++ toString oneWay)]⟩
            | .ok none =>
              let p := getMockPriceTrendsForRoute env.rnd st.k env.now origin destination
              ⟨.ok p.1, ⟨q2, (getAmadeusToken st.tokenInfo env.now env.exchange).tokenInfo, p.2⟩, ev0 ++ [.networkCall .flightDates]⟩
            | .error e =>
              if e.isAxiosError then
                let p := getMockPriceTrendsForRoute env.rnd st.k env.now origin destination
                ⟨.ok p.1, ⟨q2, (getAmadeusToken st.tokenInfo env.now env.exchange).tokenInfo, p.2⟩, ev0 ++ [.networkCall .flightDates]⟩
              else ⟨.error e, ⟨q2, (getAmadeusToken st.tokenInfo env.now env.exchange).tokenInfo, st.k⟩, ev0 ++ [.networkCall .flightDates]⟩

/-- `FlightAPI.getPriceTrends`: same-route short-circuit, then delegate to
`getFlightCheapestDates` with the default `oneWay = false`. -/
def getPriceTrends (env : Env) (st : MState) (cached : Option (List PriceDataPoint))
    (origin destination : String) : OpOut (List PriceDataPoint) :=
  if origin = destination then
    let p := getMockPriceTrendsForRoute env.rnd st.k env.now origin destination
    ⟨.ok p.1, { st with k := p.2 }, []⟩
  else getFlightCheapestDates env st cached origin destination false

/-- First-occurrence deduplication by airport code (the JavaScript
`findIndex`-based filter). -/
def dedupByCode : List Airport → List String → List Airport
  | [], _ => []
  | a :: rest, seen =>
    if a.code ∈ seen then dedupByCode rest seen
    else a :: dedupByCode rest (a.code :: seen)

/-- `FlightAPI.getAirportSuggestions`: short-query guard → cache → mock mode
→ rate limit → `try` (record call, token, live call, filter records carrying
a truthy `iataCode` and `name`, map, dedupe by code, take 8, cache for
168 h); a payload without a data array returns `[]`; the catch falls back to
mock suggestions only for axios errors. -/
def getAirportSuggestions (env : Env) (st : MState) (cached : Option (List Airport))
    (query : String) : OpOut (List Airport) :=
  if query.length < 2 then ⟨.ok [], st, []⟩
  else
    match cached with
    | some c => ⟨.ok c, st, []⟩
    | none =>
      if env.mockMode then ⟨.ok (getMockAirportSuggestions query), st, []⟩
      else
        let q1 := (canMakeCall env.now st.quota).1
        if ((canMakeCall env.now st.quota).2).isAllowed = false then
          ⟨.ok (getMockAirportSuggestions query), { st with quota := q1 }, []⟩
        else
          let q2 := recordCall q1
          let ev0 := Event.recordCallEvent :: (getAmadeusToken st.tokenInfo env.now env.exchange).events
          match (getAmadeusToken st.tokenInfo env.now env.exchange).result with
          | .error e =>
            if e.isAxiosError then
              ⟨.ok (getMockAirportSuggestions query), ⟨q2, (getAmadeusToken st.tokenInfo env.now env.exchange).tokenInfo, st.k⟩, ev0⟩
            else ⟨.error e, ⟨q2, (getAmadeusToken st.tokenInfo env.now env.exchange).tokenInfo, st.k⟩, ev0⟩
          | .ok _ =>
            match env.locationsResp with
            | .ok (some locs) =>
              let suggestions :=
                (dedupByCode ((locs.filter fun l => l.iataCode ≠ "" && l.name ≠ "").map
                  fun l => Airport.mk l.iataCode l.name
                    (if l.cityName = "" then "Unknown" else l.cityName)) []).take 8
              ⟨.ok suggestions, ⟨q2, (getAmadeusToken st.tokenInfo env.now env.exchange).tokenInfo, st.k⟩,
               ev0 ++ [.networkCall .locations, .cacheWrite ("airports_" ++ query.toLower)]⟩
            | .ok none => ⟨.ok [], ⟨q2, (getAmadeusToken st.tokenInfo env.now env.exchange).tokenInfo, st.k⟩, ev0 ++ [.networkCall .locations]⟩
            | .error e =>
              if e.isAxiosError then
                ⟨.ok (getMockAirportSuggestions query), ⟨q2, (getAmadeusToken st.tokenInfo env.now env.exchange).tokenInfo, st.k⟩,
                 ev0 ++ [.networkCall .locations]⟩
              else ⟨.error e, ⟨q2, (getAmadeusToken st.tokenInfo env.now env.exchange).tokenInfo, st.k⟩, ev0 ++ [.networkCall .locations]⟩

/-- `FlightAPI.searchFlights`: same-route short-circuit → mock mode → `try`
(get price trends, average them with fallback 300, generate enhanced mock
flights biased by the average), catch falling back to unbiased mock flights.
It never performs a flight-offers live call of its own. -/
def searchFlights (env : Env) (st : MState) (cachedTrends : Option (List PriceDataPoint))
    (origin destination : String) : OpOut (List Flight) :=
  if origin = destination then
    let p := generateEnhancedMockFlights env.rnd st.k env.now origin destination none
    ⟨.ok p.1, { st with k := p.2 }, []⟩
  else if env.mockMode then
    let p := generateEnhancedMockFlights env.rnd st.k env.now origin destination none
    ⟨.ok p.1, { st with k := p.2 }, []⟩
  else
    match (getPriceTrends env st cachedTrends origin destination).result with
    | .ok trends =>
      let avgPrice : ℚ :=
        if 0 < trends.length then (trends.foldl (fun s p => s + p.price) 0) / trends.length
        else 300
      let p := generateEnhancedMockFlights env.rnd (getPriceTrends env st cachedTrends origin destination).state.k env.now origin destination
        (some avgPrice)
      ⟨.ok p.1, { (getPriceTrends env st cachedTrends origin destination).state with k := p.2 }, (getPriceTrends env st cachedTrends origin destination).events⟩
    | .error _ =>
      let p := generateEnhancedMockFlights env.rnd (getPriceTrends env st cachedTrends origin destination).state.k env.now origin destination none
      ⟨.ok p.1, { (getPriceTrends env st cachedTrends origin destination).state with k := p.2 }, (getPriceTrends env st cachedTrends origin destination).events⟩

/-! ### Claim C3: cache round-trip and expiry law -/

/-- C3: for every key, value and ttl, a `get` performed after
`set(key, v, ttlHours)` returns the stored value exactly when the elapsed
time since the set is at most `ttlHours` converted to milliseconds; when the
elapsed time exceeds the ttl, `get` returns `none` and removes the entry
from the store. -/
theorem cache_roundtrip_expiry {T : Type} (store : CacheStore T) (key : String) (v : T)
    (ttlHours t0 t1 : Nat) :
    (t1 - t0 ≤ ttlHours * 60 * 60 * 1000 →
      cacheGet (cacheSet store key v ttlHours t0) key t1
        = (cacheSet store key v ttlHours t0, some v))
    ∧ (ttlHours * 60 * 60 * 1000 < t1 - t0 →
      (cacheGet (cacheSet store key v ttlHours t0) key t1).2 = none
      ∧ (cacheGet (cacheSet store key v ttlHours t0) key t1).1 (cacheNamespace ++ key)
        = none) := by
  have hset : (cacheSet store key v ttlHours t0) (cacheNamespace ++ key)
      = some ⟨v, t0, ttlHours * 60 * 60 * 1000⟩ := by
    unfold cacheSet; simp
  constructor
  · intro h
    unfold cacheGet
    rw [hset]
    simp only
    rw [if_neg (by omega)]
  · intro h
    unfold cacheGet
    rw [hset]
    simp only
    rw [if_pos (by omega)]
    exact ⟨rfl, by simp⟩

/-- C3 witness: a value set with a 24-hour ttl is still returned 1000 ms
later, and is gone 90 000 000 ms (25 h) later. -/
theorem cache_roundtrip_expiry_witness :
    cacheGet (cacheSet (fun _ => (none : Option (APICache Nat))) "trends" 7 24 0) "trends" 1000
      = (cacheSet (fun _ => none) "trends" 7 24 0, some 7)
    ∧ (cacheGet (cacheSet (fun _ => (none : Option (APICache Nat))) "trends" 7 24 0) "trends"
        90000000).2 = none :=
  ⟨(cache_roundtrip_expiry (fun _ => none) "trends" 7 24 0 1000).1 (by norm_num),
   ((cache_roundtrip_expiry (fun _ => none) "trends" 7 24 0 90000000).2 (by norm_num)).1⟩

/-! ### Claim C2: quota tracker ceilings -/

def burstTrace : List Nat := List.replicate 10 60000 ++ List.replicate 10 60001

/-- C2 counterexample: starting from a fresh tracker with `minuteStart = 0`,
ten attempts at t = 60000 and ten at t = 60001 are all admitted: 20
admissions whose timestamps span 1 ms, hence all inside one 60000 ms rolling
window — more than the per-window ceiling of 10.  The tracker's window is
epoch-based (it only resets when 60 000 ms have passed since `minuteStart`),
not rolling, so the claim as stated fails. -/
theorem quota_rolling_window_counterexample :
    (rlRun ⟨0, 0, 0⟩ burstTrace).2 = 20
    ∧ burstTrace.all (fun t => 60000 ≤ t && t ≤ 60001) = true
    ∧ 60001 - 60000 ≤ 60000 ∧ 10 < 20 := by decide

/-- C2 (amended): the tracker admits at most 10 calls within any single
tracker window epoch (attempts while the window that started at
`minuteStart` has not yet expired), and at most 39 calls in a day (trace
starting from `callsToday = 0`); `canMakeCall` first resets
`callsThisMinute` to 0 and `minuteStart` to `now` when `now - minuteStart`
exceeds 60 000 ms, then denies with the computed wait time when the
per-window ceiling is reached, then denies when the per-day ceiling is
reached, and otherwise allows with `callsLeft = 39 - callsToday`. -/
theorem quota_tracker_amended :
    (∀ s ts, s.callsThisMinute = 0 → (∀ t ∈ ts, t ≤ s.minuteStart + 60000) →
      (rlRun s ts).2 ≤ 10)
    ∧ (∀ s ts, s.callsToday = 0 → (rlRun s ts).2 ≤ 39)
    ∧ (∀ now s, 60000 < now - s.minuteStart →
        (canMakeCall now s).1 = ⟨s.callsToday, 0, now⟩)
    ∧ (∀ now s, ¬ 60000 < now - s.minuteStart → (canMakeCall now s).1 = s)
    ∧ (∀ now s, 10 ≤ (canMakeCall now s).1.callsThisMinute →
        (canMakeCall now s).2
          = .deniedRate ((60000 - (now - (canMakeCall now s).1.minuteStart) + 999) / 1000))
    ∧ (∀ now s, (canMakeCall now s).1.callsThisMinute < 10 → 39 ≤ s.callsToday →
        (canMakeCall now s).2 = .deniedDaily)
    ∧ (∀ now s, (canMakeCall now s).1.callsThisMinute < 10 → s.callsToday < 39 →
        (canMakeCall now s).2 = .allowed (39 - s.callsToday)) := by
  refine ⟨?_, ?_, ?_, ?_, ?_, ?_, ?_⟩
  · intro s ts h0 hts
    have := rlRun_window s ts hts
    simp only [MAX_CALLS_PER_MINUTE] at this
    omega
  · intro s ts h0
    have h1 := rlRun_callsToday s ts
    have h2 := rlRun_daily s ts
    simp only [MAX_CALLS_PER_DAY] at h2
    omega
  · intro now s h
    unfold canMakeCall rlReset
    simp [h]
  · intro now s h
    unfold canMakeCall rlReset
    simp [h]
  · intro now s h
    unfold canMakeCall rlDecide
    unfold canMakeCall at h
    simp only [MAX_CALLS_PER_MINUTE]
    rw [if_pos (by simpa [MAX_CALLS_PER_MINUTE] using h)]
  · intro now s h1 h2
    unfold canMakeCall at h1 ⊢
    have h1' : (rlReset now s).callsThisMinute < 10 := h1
    unfold rlDecide
    rw [if_neg (by simp only [MAX_CALLS_PER_MINUTE]; omega),
      if_pos (by simp only [MAX_CALLS_PER_DAY, rlReset_callsToday]; omega)]
  · intro now s h1 h2
    unfold canMakeCall at h1 ⊢
    have h1' : (rlReset now s).callsThisMinute < 10 := h1
    unfold rlDecide
    rw [if_neg (by simp only [MAX_CALLS_PER_MINUTE]; omega),
      if_neg (by simp only [MAX_CALLS_PER_DAY, rlReset_callsToday]; omega)]
    rw [rlReset_callsToday]
    rfl

/-- C2 (amended) witness at concrete states and timestamps. -/
theorem quota_tracker_amended_witness :
    (rlRun ⟨0, 0, 0⟩ [0, 30000, 60000]).2 ≤ 10
    ∧ (rlRun ⟨0, 5, 0⟩ [70000]).2 ≤ 39
    ∧ (canMakeCall 70000 ⟨3, 7, 0⟩).1 = ⟨3, 0, 70000⟩
    ∧ (canMakeCall 50000 ⟨3, 7, 0⟩).1 = ⟨3, 7, 0⟩
    ∧ (canMakeCall 50000 ⟨3, 10, 0⟩).2
        = .deniedRate ((60000 - (50000 - (canMakeCall 50000 ⟨3, 10, 0⟩).1.minuteStart) + 999)
            / 1000)
    ∧ (canMakeCall 50000 ⟨39, 0, 0⟩).2 = .deniedDaily
    ∧ (canMakeCall 50000 ⟨5, 0, 0⟩).2 = .allowed (39 - 5) :=
  ⟨quota_tracker_amended.1 ⟨0, 0, 0⟩ [0, 30000, 60000] rfl (by decide),
   quota_tracker_amended.2.1 ⟨0, 5, 0⟩ [70000] rfl,
   quota_tracker_amended.2.2.1 70000 ⟨3, 7, 0⟩ (by decide),
   quota_tracker_amended.2.2.2.1 50000 ⟨3, 7, 0⟩ (by decide),
   quota_tracker_amended.2.2.2.2.1 50000 ⟨3, 10, 0⟩ (by decide),
   quota_tracker_amended.2.2.2.2.2.1 50000 ⟨39, 0, 0⟩ (by decide) (by decide),
   quota_tracker_amended.2.2.2.2.2.2 50000 ⟨5, 0, 0⟩ (by decide) (by decide)⟩

/-! ### Claim C6: token lifecycle -/

/-- C6 counterexample: an exchange that grants a 600 000 ms lifetime still
gets its expiry stored as `now + 1 500 000` ms — an offset exceeding the
entire granted lifetime, so the stored expiry is not
`now + (grantedLifetime - margin)` for any non-negative margin; the code
ignores the response's granted lifetime and hardcodes 25 minutes. -/
theorem token_lifetime_counterexample :
    (getAmadeusToken none 0 (.ok ⟨some "TOKEN", 600000⟩)).tokenInfo
      = some ⟨"TOKEN", 1500000⟩
    ∧ 600000 < 1500000 := by
  refine ⟨?_, by norm_num⟩
  rfl

/-- C6 (amended): `getAmadeusToken` returns the cached token (with no
exchange) exactly when `now` is strictly before its stored expiry; a token
whose expiry has passed, or an empty cache, triggers a credential exchange;
on a successful exchange the new expiry is stored as the fixed
`now + 25 * 60 * 1000` ms (the provider's nominal 30-minute lifetime minus a
5-minute safety margin), independent of the lifetime granted in the
response. -/
theorem token_lifecycle_amended :
    (∀ t now ex, now < t.expiresAt →
      getAmadeusToken (some t) now ex = ⟨.ok t.accessToken, some t, []⟩)
    ∧ (∀ t now ex, ¬ now < t.expiresAt →
        Event.networkCall .tokenExchange ∈ (getAmadeusToken (some t) now ex).events)
    ∧ (∀ now ex, Event.networkCall .tokenExchange ∈ (getAmadeusToken none now ex).events)
    ∧ (∀ now tk ei,
        (getAmadeusToken none now (.ok ⟨some tk, ei⟩)).tokenInfo
          = some ⟨tk, now + 25 * 60 * 1000⟩
        ∧ (getAmadeusToken none now (.ok ⟨some tk, ei⟩)).result = .ok tk)
    ∧ (∀ t now tk ei, ¬ now < t.expiresAt →
        (getAmadeusToken (some t) now (.ok ⟨some tk, ei⟩)).tokenInfo
          = some ⟨tk, now + 25 * 60 * 1000⟩) := by
  have hfe : ∀ tok now ex, (tokenFetch tok now ex).events = [Event.networkCall .tokenExchange] := by
    intro tok now ex
    unfold tokenFetch
    rcases ex with e | resp
    · rfl
    · rcases h : resp.access_token with _ | tk <;> simp [h]
  have hfo : ∀ tok now tk ei,
      (tokenFetch tok now (.ok ⟨some tk, ei⟩)).tokenInfo = some ⟨tk, now + 25 * 60 * 1000⟩
      ∧ (tokenFetch tok now (.ok ⟨some tk, ei⟩)).result = .ok tk := by
    intro tok now tk ei
    exact ⟨rfl, rfl⟩
  refine ⟨?_, ?_, ?_, ?_, ?_⟩
  · intro t now ex h
    unfold getAmadeusToken
    simp [h]
  · intro t now ex h
    unfold getAmadeusToken
    simp only [if_neg h, hfe]
    exact List.mem_singleton.2 rfl
  · intro now ex
    unfold getAmadeusToken
    rw [hfe]
    exact List.mem_singleton.2 rfl
  · intro now tk ei
    exact hfo none now tk ei
  · intro t now tk ei hexp
    unfold getAmadeusToken
    simp only [if_neg hexp]
    exact (hfo (some t) now tk ei).1

/-- C6 (amended) witness at concrete tokens and responses. -/
theorem token_lifecycle_amended_witness :
    getAmadeusToken (some ⟨"OLD", 5000⟩) 100 (.error (.axiosError none))
        = ⟨.ok "OLD", some ⟨"OLD", 5000⟩, []⟩
    ∧ Event.networkCall .tokenExchange
        ∈ (getAmadeusToken (some ⟨"OLD", 5000⟩) 6000 (.ok ⟨some "NEW", 600000⟩)).events
    ∧ Event.networkCall .tokenExchange
        ∈ (getAmadeusToken none 0 (.error (.genericError "boom"))).events
    ∧ (getAmadeusToken none 42 (.ok ⟨some "NEW", 600000⟩)).tokenInfo
        = some ⟨"NEW", 42 + 25 * 60 * 1000⟩
    ∧ (getAmadeusToken (some ⟨"OLD", 5000⟩) 6000 (.ok ⟨some "NEW", 600000⟩)).tokenInfo
        = some ⟨"NEW", 6000 + 25 * 60 * 1000⟩ :=
  ⟨token_lifecycle_amended.1 ⟨"OLD", 5000⟩ 100 (.error (.axiosError none)) (by norm_num),
   token_lifecycle_amended.2.1 ⟨"OLD", 5000⟩ 6000 (.ok ⟨some "NEW", 600000⟩) (by norm_num),
   token_lifecycle_amended.2.2.1 0 (.error (.genericError "boom")),
   (token_lifecycle_amended.2.2.2.1 42 "NEW" 600000).1,
   token_lifecycle_amended.2.2.2.2 ⟨"OLD", 5000⟩ 6000 "NEW" 600000 (by norm_num)⟩

/-! ### Claim C1: error propagation at the mediator boundary -/

/-- A live-mode environment in which the token endpoint rejects the
credential exchange (HTTP 401). -/
def envTokenFailure : Env :=
  { mockMode := false, now := 0, rnd := fun _ => 0,
    exchange := .error (.axiosError (some 401)),
    inspirationResp := .ok ⟨[], 0⟩, datesResp := .ok none, locationsResp := .ok none }

def freshState : MState := ⟨⟨0, 0, 0⟩, none, 0⟩

/-- C1 counterexample: in live mode with a cold cache and free quota, an
authentication failure (the token manager rethrows a plain `Error`, which
`axios.isAxiosError` rejects) propagates out of `getFlightCheapestDates` as
a thrown error instead of being converted to a synthesized result. -/
theorem error_propagation_counterexample :
    (getFlightCheapestDates envTokenFailure freshState none "JFK" "LAX" false).result
      = .error (.genericError "Failed to authenticate with Amadeus API") := rfl

lemma searchFlights_isOk (env : Env) (st : MState) (cached : Option (List PriceDataPoint))
    (origin destination : String) :
    ∃ l, (searchFlights env st cached origin destination).result = .ok l := by
  unfold searchFlights
  repeat' split
  all_goals exact ⟨_, rfl⟩

lemma inspiration_error_not_axios (env : Env) (st : MState)
    (cached : Option InspirationPayload) (origin : String) (maxPrice : ℚ) (oneWay : Bool)
    (e : JsError)
    (h : (getFlightInspiration env st cached origin maxPrice oneWay).result = .error e) :
    e.isAxiosError = false := by
  unfold getFlightInspiration at h
  repeat' split at h
  all_goals simp_all

lemma cheapestDates_error_not_axios (env : Env) (st : MState)
    (cached : Option (List PriceDataPoint)) (origin destination : String) (oneWay : Bool)
    (e : JsError)
    (h : (getFlightCheapestDates env st cached origin destination oneWay).result = .error e) :
    e.isAxiosError = false := by
  unfold getFlightCheapestDates at h
  repeat' split at h
  all_goals simp_all

lemma priceTrends_error_not_axios (env : Env) (st : MState)
    (cached : Option (List PriceDataPoint)) (origin destination : String) (e : JsError)
    (h : (getPriceTrends env st cached origin destination).result = .error e) :
    e.isAxiosError = false := by
  unfold getPriceTrends at h
  split at h
  · exact absurd h (by simp)
  · exact cheapestDates_error_not_axios env st cached origin destination false e h

lemma suggestions_error_not_axios (env : Env) (st : MState) (cached : Option (List Airport))
    (query : String) (e : JsError)
    (h : (getAirportSuggestions env st cached query).result = .error e) :
    e.isAxiosError = false := by
  unfold getAirportSuggestions at h
  repeat' split at h
  all_goals simp_all

/-- C1 (amended): `searchFlights` converts every internal failure to a
synthesized result, and every transport (axios) failure — quota denials and
degenerate inputs never even reach the live path — is converted to a
synthesized result in all four operations; but a failure that is not an
axios error, notably an authentication failure (the token manager rethrows
it as a plain `Error`), propagates to the caller as a thrown error from
`getFlightInspiration`, `getFlightCheapestDates`/`getPriceTrends` and
`getAirportSuggestions`. -/
theorem error_handling_amended :
    (∀ env st cached origin destination,
      ∃ l, (searchFlights env st cached origin destination).result = .ok l)
    ∧ (∀ env st cached origin maxPrice oneWay e,
        (getFlightInspiration env st cached origin maxPrice oneWay).result = .error e →
        e.isAxiosError = false)
    ∧ (∀ env st cached origin destination oneWay e,
        (getFlightCheapestDates env st cached origin destination oneWay).result = .error e →
        e.isAxiosError = false)
    ∧ (∀ env st cached origin destination e,
        (getPriceTrends env st cached origin destination).result = .error e →
        e.isAxiosError = false)
    ∧ (∀ env st cached query e,
        (getAirportSuggestions env st cached query).result = .error e →
        e.isAxiosError = false) :=
  ⟨searchFlights_isOk,
   inspiration_error_not_axios,
   cheapestDates_error_not_axios,
   priceTrends_error_not_axios,
   suggestions_error_not_axios⟩

/-- C1 (amended) witness: the concrete failing environment instantiates the
amended theorem; `searchFlights` still returns an `ok` list there, and the
error that does escape `getFlightCheapestDates` is not an axios error. -/
theorem error_handling_amended_witness :
    (∃ l, (searchFlights envTokenFailure freshState none "JFK" "LAX").result = .ok l)
    ∧ (JsError.genericError "Failed to authenticate with Amadeus API").isAxiosError = false :=
  ⟨error_handling_amended.1 envTokenFailure freshState none "JFK" "LAX",
   error_handling_amended.2.2.1 envTokenFailure freshState none "JFK" "LAX" false _ rfl⟩

/-! ### Claim C7 / C8: properties of the synthesizer output -/

lemma jsRound_nonneg (q : ℚ) (h : 0 ≤ q) : 0 ≤ jsRound q := by
  unfold jsRound
  exact Int.le_floor.2 (by push_cast; linarith)

lemma jsRound_pos (q : ℚ) (h : 1/2 ≤ q) : 0 < jsRound q := by
  unfold jsRound
  have h1 : (1 : ℤ) ≤ ⌊q + 1/2⌋ := Int.le_floor.2 (by push_cast; linarith)
  omega

lemma calculateRealisticDuration_nonneg (r : ℚ) (stops : Nat) (h : 0 ≤ r) :
    0 ≤ calculateRealisticDuration r stops := by
  unfold calculateRealisticDuration
  apply jsRound_nonneg
  have hs : (0 : ℚ) ≤ (stops : ℚ) := by positivity
  nlinarith

lemma pickStops_cases (rnd : Nat → ℚ) (k : Nat) :
    (pickStops rnd k).1 = 0 ∨ (pickStops rnd k).1 = 1 ∨ (pickStops rnd k).1 = 2 := by
  unfold pickStops
  split
  · simp
  · split <;> simp

lemma jsFloor_toNat_lt (r : ℚ) (m : Nat) (h0 : 0 ≤ r) (h1 : r < 1) (hm : 0 < m) :
    (jsFloor (r * m)).toNat < m := by
  unfold jsFloor
  have hmq : (0 : ℚ) < (m : ℚ) := by exact_mod_cast hm
  have hfl : ⌊r * (m : ℚ)⌋ < (m : ℤ) := Int.floor_lt.2 (by push_cast; nlinarith)
  omega

lemma mockBase_ge (rnd : Nat → ℚ) (k : Nat) (bp : Option ℚ) (hr : ValidRnd rnd)
    (hbp : ∀ b, bp = some b → b = 0 ∨ 2/3 ≤ b) :
    2/3 ≤ (mockBase rnd k bp).1 := by
  have h0 := (hr k).1
  rcases bp with _ | b
  · show (2 : ℚ)/3 ≤ 200 + rnd k * 800
    nlinarith
  · rcases hbp b rfl with hb | hb
    · subst hb
      show (2 : ℚ)/3 ≤ (if (0 : ℚ) = 0 then (200 + rnd k * 800, k + 1) else ((0 : ℚ), k)).1
      rw [if_pos rfl]
      show (2 : ℚ)/3 ≤ 200 + rnd k * 800
      nlinarith
    · have hbne : ¬ b = 0 := by intro h; rw [h] at hb; norm_num at hb
      show (2 : ℚ)/3 ≤ (if b = 0 then (200 + rnd k * 800, k + 1) else (b, k)).1
      rw [if_neg hbne]
      exact hb

lemma genOneFlight_duration (rnd : Nat → ℚ) (k now : Nat) (o d : String) (b : ℚ) (i : Nat) :
    (genOneFlight rnd k now o d b i).1.duration = flightDuration rnd k := rfl

lemma genOneFlight_price (rnd : Nat → ℚ) (k now : Nat) (o d : String) (b : ℚ) (i : Nat) :
    (genOneFlight rnd k now o d b i).1.price
      = jsRound (b * (3/4 + rnd ((pickStops rnd k).2 + 2) * (1/2))) := rfl

lemma genOneFlight_stops (rnd : Nat → ℚ) (k now : Nat) (o d : String) (b : ℚ) (i : Nat) :
    (genOneFlight rnd k now o d b i).1.stops = (pickStops rnd k).1 := rfl

lemma genFlightsLoop_succ (rnd : Nat → ℚ) (now : Nat) (o d : String) (b : ℚ) (i n k : Nat) :
    genFlightsLoop rnd now o d b i (n + 1) k
      = ((genOneFlight rnd k now o d b i).1
          :: (genFlightsLoop rnd now o d b (i + 1) n (genOneFlight rnd k now o d b i).2).1,
         (genFlightsLoop rnd now o d b (i + 1) n (genOneFlight rnd k now o d b i).2).2) := rfl

lemma genFlightsLoop_length (rnd : Nat → ℚ) (now : Nat) (o d : String) (b : ℚ) :
    ∀ n i k, (genFlightsLoop rnd now o d b i n k).1.length = n := by
  intro n
  induction n with
  | zero => intro i k; rfl
  | succ n ih =>
    intro i k
    rw [genFlightsLoop_succ]
    simp [ih]

lemma genFlightsLoop_mem (rnd : Nat → ℚ) (now : Nat) (o d : String) (b : ℚ)
    (hr : ValidRnd rnd) :
    ∀ n i k f, f ∈ (genFlightsLoop rnd now o d b i n k).1 →
      0 ≤ f.duration ∧ (f.stops = 0 ∨ f.stops = 1 ∨ f.stops = 2) := by
  intro n
  induction n with
  | zero => intro i k f hf; cases hf
  | succ n ih =>
    intro i k f hf
    rw [genFlightsLoop_succ] at hf
    rcases List.mem_cons.1 hf with rfl | hf
    · refine ⟨?_, ?_⟩
      · rw [genOneFlight_duration]
        unfold flightDuration
        exact calculateRealisticDuration_nonneg _ _ (hr _).1
      · rw [genOneFlight_stops]
        exact pickStops_cases rnd k
    · exact ih _ _ f hf

lemma genFlightsLoop_mem_price (rnd : Nat → ℚ) (now : Nat) (o d : String) (b : ℚ)
    (hr : ValidRnd rnd) (hb : 2/3 ≤ b) :
    ∀ n i k f, f ∈ (genFlightsLoop rnd now o d b i n k).1 → 0 < f.price := by
  intro n
  induction n with
  | zero => intro i k f hf; cases hf
  | succ n ih =>
    intro i k f hf
    rw [genFlightsLoop_succ] at hf
    rcases List.mem_cons.1 hf with rfl | hf
    · rw [genOneFlight_price]
      apply jsRound_pos
      have h0 := (hr ((pickStops rnd k).2 + 2)).1
      nlinarith
    · exact ih _ _ f hf

/-- C7 (amended): every synthesized flight list is sorted ascending by
price, has between 12 and 18 records, and every record satisfies
`duration ≥ 0` and stop count in `{0, 1, 2}`; `price > 0` additionally
holds provided the supplied base price is absent, zero (falsy, replaced by
the 200–1000 default) or at least `2/3`, which the counterexample shows is
needed.  Only the price conjunct carries the base-price proviso; the other
conjuncts hold for every base price. -/
theorem synthesized_flights_amended (rnd : Nat → ℚ) (k now : Nat)
    (origin destination : String) (basePrice : Option ℚ) (hr : ValidRnd rnd) :
    List.Sorted Flight.priceLE
      (generateEnhancedMockFlights rnd k now origin destination basePrice).1
    ∧ 12 ≤ (generateEnhancedMockFlights rnd k now origin destination basePrice).1.length
    ∧ (generateEnhancedMockFlights rnd k now origin destination basePrice).1.length ≤ 18
    ∧ (∀ f ∈ (generateEnhancedMockFlights rnd k now origin destination basePrice).1,
        0 ≤ f.duration ∧ (f.stops = 0 ∨ f.stops = 1 ∨ f.stops = 2))
    ∧ ((∀ b, basePrice = some b → b = 0 ∨ 2/3 ≤ b) →
        ∀ f ∈ (generateEnhancedMockFlights rnd k now origin destination basePrice).1,
          0 < f.price) := by
  unfold generateEnhancedMockFlights
  refine ⟨List.sorted_insertionSort _ _, ?_, ?_, ?_, ?_⟩
  · rw [List.length_insertionSort, genFlightsLoop_length]
    omega
  · rw [List.length_insertionSort, genFlightsLoop_length]
    have hlt := jsFloor_toNat_lt (rnd (mockBase rnd k basePrice).2) 6
      (hr _).1 (hr _).2 (by norm_num)
    have hc : ((6 : Nat) : ℚ) = (6 : ℚ) := by norm_num
    rw [hc] at hlt
    omega
  · intro f hf
    rw [List.mem_insertionSort] at hf
    exact genFlightsLoop_mem rnd now origin destination _ hr _ _ _ f hf
  · intro hbp f hf
    rw [List.mem_insertionSort] at hf
    exact genFlightsLoop_mem_price rnd now origin destination _ hr
      (mockBase_ge rnd k basePrice hr hbp) _ _ _ f hf

def rndZero : Nat → ℚ := fun _ => 0

/-- C7 (amended) witness: the amended theorem instantiated at the all-zeros
random stream with no supplied base price, the price implication discharged
there as well. -/
theorem synthesized_flights_amended_witness :
    List.Sorted Flight.priceLE
      (generateEnhancedMockFlights rndZero 0 0 "JFK" "LAX" none).1
    ∧ 12 ≤ (generateEnhancedMockFlights rndZero 0 0 "JFK" "LAX" none).1.length
    ∧ (generateEnhancedMockFlights rndZero 0 0 "JFK" "LAX" none).1.length ≤ 18
    ∧ (∀ f ∈ (generateEnhancedMockFlights rndZero 0 0 "JFK" "LAX" none).1,
        0 ≤ f.duration ∧ (f.stops = 0 ∨ f.stops = 1 ∨ f.stops = 2))
    ∧ (∀ f ∈ (generateEnhancedMockFlights rndZero 0 0 "JFK" "LAX" none).1, 0 < f.price) := by
  have h := synthesized_flights_amended rndZero 0 0 "JFK" "LAX" none
    (fun _ => by unfold rndZero; norm_num)
  exact ⟨h.1, h.2.1, h.2.2.1, h.2.2.2.1, h.2.2.2.2 (fun b hb => Option.noConfusion hb)⟩

lemma pickStops_rndZero (k : Nat) : pickStops rndZero k = (0, k + 3) := by
  unfold pickStops rndZero
  rw [if_neg (by norm_num), if_neg (by norm_num)]

lemma mockBase_rndZero_of_ne (b : ℚ) (hb : b ≠ 0) (k : Nat) :
    mockBase rndZero k (some b) = (b, k) := by
  show (if b = 0 then (200 + rndZero k * 800, k + 1) else (b, k)) = (b, k)
  rw [if_neg hb]

lemma generateEnhanced_rndZero_eq (b : ℚ) (hb : b ≠ 0) (now : Nat) (o d : String) :
    (generateEnhancedMockFlights rndZero 0 now o d (some b)).1
      = ((genFlightsLoop rndZero now o d b 0 12 1).1.insertionSort Flight.priceLE) := by
  unfold generateEnhancedMockFlights
  rw [mockBase_rndZero_of_ne b hb]
  norm_num [jsFloor, rndZero]

lemma genFirst_mem_rndZero (b : ℚ) (hb : b ≠ 0) (now : Nat) (o d : String) :
    (genOneFlight rndZero 1 now o d b 0).1
      ∈ (generateEnhancedMockFlights rndZero 0 now o d (some b)).1 := by
  rw [generateEnhanced_rndZero_eq b hb, List.mem_insertionSort,
    show (12 : Nat) = 11 + 1 from rfl, genFlightsLoop_succ]
  exact List.mem_cons_self _ _

/-- C7 counterexample: with a supplied base price of `1/10` (as a live
average price could supply), the first synthesized flight has
`price = Math.round(0.1 * 0.75) = 0`, violating `price > 0`; the claim as
stated, quantifying over every synthesized list, fails. -/
theorem synthesized_price_counterexample :
    (genOneFlight rndZero 1 0 "JFK" "LAX" (1/10) 0).1
        ∈ (generateEnhancedMockFlights rndZero 0 0 "JFK" "LAX" (some (1/10))).1
    ∧ (genOneFlight rndZero 1 0 "JFK" "LAX" (1/10) 0).1.price = 0 := by
  refine ⟨genFirst_mem_rndZero (1/10) (by norm_num) 0 "JFK" "LAX", ?_⟩
  rw [genOneFlight_price]
  unfold rndZero jsRound
  norm_num

/-- C8: the synthesized flight record built from the all-zeros random
stream departs at 06:30 with duration 90 min, but the code computes its
arrival from the departure *hour* only (`calculateArrivalTime` receives
`departureHour`, ignoring the randomly chosen `:30` departure minute):
arrival is 07:30 (450 minutes-of-day) while
`(departure minutes-of-day + duration) mod 1440 = 480` (08:00).  This
record is a member of an actual `generateEnhancedMockFlights` output. -/
theorem arrival_time_divergence :
    (genOneFlight rndZero 1 0 "JFK" "LAX" 300 0).1
        ∈ (generateEnhancedMockFlights rndZero 0 0 "JFK" "LAX" (some 300)).1
    ∧ (genOneFlight rndZero 1 0 "JFK" "LAX" 300 0).1.depHour = 6
    ∧ (genOneFlight rndZero 1 0 "JFK" "LAX" 300 0).1.depMinute = 30
    ∧ (genOneFlight rndZero 1 0 "JFK" "LAX" 300 0).1.duration = 90
    ∧ (genOneFlight rndZero 1 0 "JFK" "LAX" 300 0).1.arrHour * 60
        + (genOneFlight rndZero 1 0 "JFK" "LAX" 300 0).1.arrMinute = 450
    ∧ ((6 * 60 + 30 + 90) % 1440 : ℤ) = 480
    ∧ (450 : ℤ) ≠ 480 := by
  have hdep : flightDepHour rndZero 1 = 6 := by
    unfold flightDepHour
    rw [pickStops_rndZero]
    norm_num [jsFloor, rndZero]
  have hdur : flightDuration rndZero 1 = 90 := by
    unfold flightDuration
    rw [pickStops_rndZero]
    unfold calculateRealisticDuration rndZero jsRound
    norm_num
  refine ⟨genFirst_mem_rndZero 300 (by norm_num) 0 "JFK" "LAX", hdep, ?_, hdur, ?_, by decide,
    by decide⟩
  · show (if rndZero ((pickStops rndZero 1).2 + 4) > 1/2 then 0 else 30) = 30
    rw [if_neg (by unfold rndZero; norm_num)]
  · show (calculateArrivalTime (flightDepHour rndZero 1) (flightDuration rndZero 1)).1 * 60
        + (calculateArrivalTime (flightDepHour rndZero 1) (flightDuration rndZero 1)).2 = 450
    rw [hdep, hdur]
    decide

/-! ### Claim C4: degenerate same-origin/destination short-circuit -/

lemma mockTrendsLoop_length (rnd : Nat → ℚ) (today : Nat) :
    ∀ n i k, (mockTrendsLoop rnd today i n k).1.length = n := by
  intro n
  induction n with
  | zero => intro i k; rfl
  | succ n ih =>
    intro i k
    simp only [mockTrendsLoop, List.length_cons, ih]

lemma getMockPriceTrends_ne_nil (rnd : Nat → ℚ) (k today : Nat) (o d : String) :
    (getMockPriceTrendsForRoute rnd k today o d).1 ≠ [] := by
  intro h
  have h7 : (getMockPriceTrendsForRoute rnd k today o d).1.length = 7 :=
    mockTrendsLoop_length rnd today 7 0 k
  rw [h] at h7
  cases h7

lemma generateEnhanced_ne_nil (rnd : Nat → ℚ) (k now : Nat) (o d : String) (bp : Option ℚ) :
    (generateEnhancedMockFlights rnd k now o d bp).1 ≠ [] := by
  intro h
  have h12 : 12 ≤ (generateEnhancedMockFlights rnd k now o d bp).1.length := by
    unfold generateEnhancedMockFlights
    rw [List.length_insertionSort, genFlightsLoop_length]
    omega
  rw [h] at h12
  cases h12

/-- C4: a flight-search or price-trend request whose origin equals its
destination returns the synthesizer's output, which is non-empty, with no
side effects at all (no network call, no quota record) and the quota
counters unchanged. -/
theorem degenerate_route_synthesis (env : Env) (st : MState)
    (cachedTrends : Option (List PriceDataPoint)) (origin destination : String)
    (h : origin = destination) :
    ((searchFlights env st cachedTrends origin destination).result
        = .ok (generateEnhancedMockFlights env.rnd st.k env.now origin destination none).1
      ∧ (generateEnhancedMockFlights env.rnd st.k env.now origin destination none).1 ≠ []
      ∧ (searchFlights env st cachedTrends origin destination).events = []
      ∧ (searchFlights env st cachedTrends origin destination).state.quota = st.quota)
    ∧ ((getFlightCheapestDates env st cachedTrends origin destination false).result
        = .ok (getMockPriceTrendsForRoute env.rnd st.k env.now origin destination).1
      ∧ (getMockPriceTrendsForRoute env.rnd st.k env.now origin destination).1 ≠ []
      ∧ (getFlightCheapestDates env st cachedTrends origin destination false).events = []
      ∧ (getFlightCheapestDates env st cachedTrends origin destination false).state.quota
          = st.quota)
    ∧ ((getPriceTrends env st cachedTrends origin destination).result
        = .ok (getMockPriceTrendsForRoute env.rnd st.k env.now origin destination).1
      ∧ (getPriceTrends env st cachedTrends origin destination).events = []
      ∧ (getPriceTrends env st cachedTrends origin destination).state.quota = st.quota) := by
  subst h
  have hs : searchFlights env st cachedTrends origin origin
      = ⟨.ok (generateEnhancedMockFlights env.rnd st.k env.now origin origin none).1,
         { st with k := (generateEnhancedMockFlights env.rnd st.k env.now origin origin none).2 },
         []⟩ := by
    unfold searchFlights
    rw [if_pos rfl]
  have hc : getFlightCheapestDates env st cachedTrends origin origin false
      = ⟨.ok (getMockPriceTrendsForRoute env.rnd st.k env.now origin origin).1,
         { st with k := (getMockPriceTrendsForRoute env.rnd st.k env.now origin origin).2 },
         []⟩ := by
    unfold getFlightCheapestDates
    rw [if_pos rfl]
  have hp : getPriceTrends env st cachedTrends origin origin
      = ⟨.ok (getMockPriceTrendsForRoute env.rnd st.k env.now origin origin).1,
         { st with k := (getMockPriceTrendsForRoute env.rnd st.k env.now origin origin).2 },
         []⟩ := by
    unfold getPriceTrends
    rw [if_pos rfl]
  rw [hs, hc, hp]
  exact ⟨⟨rfl, generateEnhanced_ne_nil _ _ _ _ _ _, rfl, rfl⟩,
    ⟨rfl, getMockPriceTrends_ne_nil _ _ _ _ _, rfl, rfl⟩, rfl, rfl, rfl⟩

/-- C4 witness at a concrete degenerate route. -/
theorem degenerate_route_synthesis_witness :
    (searchFlights envTokenFailure freshState none "JFK" "JFK").result
        = .ok (generateEnhancedMockFlights envTokenFailure.rnd freshState.k envTokenFailure.now
            "JFK" "JFK" none).1
    ∧ (searchFlights envTokenFailure freshState none "JFK" "JFK").events = []
    ∧ (searchFlights envTokenFailure freshState none "JFK" "JFK").state.quota
        = freshState.quota :=
  ⟨(degenerate_route_synthesis envTokenFailure freshState none "JFK" "JFK" rfl).1.1,
   (degenerate_route_synthesis envTokenFailure freshState none "JFK" "JFK" rfl).1.2.2.1,
   (degenerate_route_synthesis envTokenFailure freshState none "JFK" "JFK" rfl).1.2.2.2⟩

/-! ### Claim C5: `searchFlights` always synthesizes -/

lemma token_events_cases (tok : Option TokenInfo) (now : Nat)
    (ex : Except JsError TokenResponse) :
    (getAmadeusToken tok now ex).events = []
    ∨ (getAmadeusToken tok now ex).events = [Event.networkCall .tokenExchange] := by
  have hf : ∀ t : Option TokenInfo,
      (tokenFetch t now ex).events = [Event.networkCall .tokenExchange] := by
    intro t
    unfold tokenFetch
    rcases ex with e | resp
    · rfl
    · rcases resp with ⟨a, ei⟩
      rcases a with _ | tk <;> rfl
  rcases tok with _ | t
  · right
    exact hf none
  · by_cases h : now < t.expiresAt
    · left
      show (if now < t.expiresAt then (⟨.ok t.accessToken, some t, []⟩ : TokenResult)
          else tokenFetch (some t) now ex).events = []
      rw [if_pos h]
    · right
      show (if now < t.expiresAt then (⟨.ok t.accessToken, some t, []⟩ : TokenResult)
          else tokenFetch (some t) now ex).events = _
      rw [if_neg h]
      exact hf (some t)

lemma cheapestDates_no_flightOffers (env : Env) (st : MState)
    (cached : Option (List PriceDataPoint)) (o d : String) (w : Bool) :
    Event.networkCall .flightOffers ∉ (getFlightCheapestDates env st cached o d w).events := by
  unfold getFlightCheapestDates
  rcases token_events_cases st.tokenInfo env.now env.exchange with he | he <;>
    (repeat' split) <;> simp_all

lemma priceTrends_no_flightOffers (env : Env) (st : MState)
    (cached : Option (List PriceDataPoint)) (o d : String) :
    Event.networkCall .flightOffers ∉ (getPriceTrends env st cached o d).events := by
  unfold getPriceTrends
  split
  · simp
  · exact cheapestDates_no_flightOffers env st cached o d false

/-- C5: `searchFlights` never performs a flight-offers live call (live data
enters only through the price-trend operation) and always returns the
output of the mock-flight synthesizer: with the average of the obtained
price trends (fallback 300) as base price on success, and with no base
price (the random 200–1000 default) when obtaining the price data failed. -/
theorem search_always_synthesizes (env : Env) (st : MState)
    (cachedTrends : Option (List PriceDataPoint)) (origin destination : String) :
    Event.networkCall .flightOffers
        ∉ (searchFlights env st cachedTrends origin destination).events
    ∧ (∃ k bp, (searchFlights env st cachedTrends origin destination).result
        = .ok (generateEnhancedMockFlights env.rnd k env.now origin destination bp).1)
    ∧ (∀ e, (getPriceTrends env st cachedTrends origin destination).result = .error e →
        (searchFlights env st cachedTrends origin destination).result
          = .ok (generateEnhancedMockFlights env.rnd
              (getPriceTrends env st cachedTrends origin destination).state.k
              env.now origin destination none).1)
    ∧ (∀ trends, (getPriceTrends env st cachedTrends origin destination).result = .ok trends →
        origin ≠ destination → env.mockMode = false →
        (searchFlights env st cachedTrends origin destination).result
          = .ok (generateEnhancedMockFlights env.rnd
              (getPriceTrends env st cachedTrends origin destination).state.k
              env.now origin destination
              (some (if 0 < trends.length
                  then trends.foldl (fun s p => s + p.price) 0 / trends.length
                  else 300))).1) := by
  refine ⟨?_, ?_, ?_, ?_⟩
  · unfold searchFlights
    repeat' split
    all_goals
      first
      | exact priceTrends_no_flightOffers env st cachedTrends origin destination
      | simp
  · unfold searchFlights
    repeat' split
    all_goals exact ⟨_, _, rfl⟩
  · intro e he
    by_cases h1 : origin = destination
    · exfalso
      unfold getPriceTrends at he
      rw [if_pos h1] at he
      exact absurd he (by simp)
    · by_cases h2 : env.mockMode = true
      · exfalso
        unfold getPriceTrends at he
        rw [if_neg h1] at he
        unfold getFlightCheapestDates at he
        rw [if_neg h1] at he
        rcases hca : cachedTrends with _ | c <;> rw [hca] at he
        · rw [if_pos h2] at he
          exact absurd he (by simp)
        · exact absurd he (by simp)
      · unfold searchFlights
        rw [if_neg h1, if_neg h2, he]
  · intro trends htr h1 h2
    unfold searchFlights
    rw [if_neg h1, if_neg (by rw [h2]; exact Bool.false_ne_true), htr]

/-- C5 witness: at the token-failure environment the price trends fail and
`searchFlights` still returns the synthesizer's output with no base price. -/
theorem search_always_synthesizes_witness :
    (searchFlights envTokenFailure freshState none "JFK" "LAX").result
      = .ok (generateEnhancedMockFlights envTokenFailure.rnd
          (getPriceTrends envTokenFailure freshState none "JFK" "LAX").state.k
          envTokenFailure.now "JFK" "LAX" none).1 :=
  (search_always_synthesizes envTokenFailure freshState none "JFK" "LAX").2.2.1
    (.genericError "Failed to authenticate with Amadeus API") rfl

/-! ### Claim C9: airport suggestions -/

/-- The invariant the claim asserts of every returned suggestion list: at
most 8 entries, deduplicated by airport code. -/
def SuggestionsInv (l : List Airport) : Prop :=
  l.length ≤ 8 ∧ (l.map Airport.code).Nodup

lemma dedupByCode_nodup : ∀ (l : List Airport) (seen : List String),
    ((dedupByCode l seen).map Airport.code).Nodup
    ∧ ∀ c ∈ (dedupByCode l seen).map Airport.code, c ∉ seen := by
  intro l
  induction l with
  | nil =>
    intro seen
    exact ⟨List.nodup_nil, fun c hc => absurd hc (List.not_mem_nil c)⟩
  | cons a rest ih =>
    intro seen
    unfold dedupByCode
    split
    · refine ⟨(ih seen).1, fun c hc => (ih seen).2 c hc⟩
    · have h2 := ih (a.code :: seen)
      constructor
      · simp only [List.map_cons, List.nodup_cons]
        exact ⟨fun hmem => (h2.2 a.code hmem) (by simp), h2.1⟩
      · intro c hc
        simp only [List.map_cons, List.mem_cons] at hc
        rcases hc with rfl | hc
        · assumption
        · intro hcs
          exact (h2.2 c hc) (by simp [hcs])

lemma mock_suggestions_inv (query : String) :
    SuggestionsInv (getMockAirportSuggestions query) := by
  unfold getMockAirportSuggestions
  split
  · exact ⟨by simp, by simp⟩
  · have hnodup : ((MOCK_AIRPORTS.filter (airportMatches query)).map Airport.code).Nodup :=
      List.Nodup.sublist ((List.filter_sublist MOCK_AIRPORTS).map Airport.code) (by decide)
    refine ⟨List.length_take_le 8 _, ?_⟩
    rw [List.map_take]
    exact List.Nodup.sublist (List.take_sublist 8 _) hnodup

lemma suggestions_inv_nil : SuggestionsInv ([] : List Airport) :=
  ⟨by simp, List.nodup_nil⟩

/-- Whatever list of mapped live records feeds it, the dedupe-then-take-8
pipeline satisfies the claim's invariant. -/
lemma dedup_take_inv (l : List Airport) : SuggestionsInv ((dedupByCode l []).take 8) := by
  refine ⟨List.length_take_le 8 _, ?_⟩
  rw [List.map_take]
  exact List.Nodup.sublist (List.take_sublist 8 _) (dedupByCode_nodup _ []).1

/-- C9: the airport-suggestions operation returns at most 8 entries,
deduplicated by code (given that any cached entry it replays was itself
stored satisfying that invariant — the only writer is the operation
itself); a query shorter than 2 characters returns `[]`; and in offline
(mock) mode, with the cache missing, the result is exactly the fixed-roster
airports whose code, city or name contains the query as a case-insensitive
substring, capped at 8. -/
theorem airport_suggestions_spec (env : Env) (st : MState) (cached : Option (List Airport))
    (query : String)
    (hcached : ∀ l, cached = some l → SuggestionsInv l) :
    (query.length < 2 → (getAirportSuggestions env st cached query).result = .ok [])
    ∧ (∀ l, (getAirportSuggestions env st cached query).result = .ok l → SuggestionsInv l)
    ∧ (env.mockMode = true → cached = none → 2 ≤ query.length →
        (getAirportSuggestions env st cached query).result
          = .ok ((MOCK_AIRPORTS.filter (airportMatches query)).take 8)) := by
  refine ⟨?_, ?_, ?_⟩
  · intro hq
    unfold getAirportSuggestions
    rw [if_pos hq]
  · intro l h
    unfold getAirportSuggestions at h
    repeat' split at h
    all_goals
      first
      | exact Except.noConfusion h
      | (injection h with h
         subst h
         first
         | exact hcached _ rfl
         | exact mock_suggestions_inv query
         | exact dedup_take_inv _
         | exact suggestions_inv_nil)
  · intro hm hc hq
    subst hc
    have hne : ¬ query = "" := by
      intro h
      subst h
      exact absurd hq (by decide)
    have hmock : getMockAirportSuggestions query
        = (MOCK_AIRPORTS.filter (airportMatches query)).take 8 := by
      unfold getMockAirportSuggestions
      rw [if_neg hne]
    unfold getAirportSuggestions
    rw [if_neg (by omega), hm, hmock]
    rfl

/-- An offline-mode environment (mock mode configured on). -/
def envMock : Env :=
  { mockMode := true, now := 0, rnd := fun _ => 0,
    exchange := .error (.genericError "offline"),
    inspirationResp := .ok ⟨[], 0⟩, datesResp := .ok none, locationsResp := .ok none }

/-- C9 witness: a one-character query returns `[]`; in offline mode the
query "JF" returns exactly the roster filter capped at 8. -/
theorem airport_suggestions_spec_witness :
    (getAirportSuggestions envMock freshState none "J").result = .ok []
    ∧ (getAirportSuggestions envMock freshState none "JF").result
        = .ok ((MOCK_AIRPORTS.filter (airportMatches "JF")).take 8) :=
  ⟨(airport_suggestions_spec envMock freshState none "J"
      (fun _ h => Option.noConfusion h)).1 (by decide),
   (airport_suggestions_spec envMock freshState none "JF"
      (fun _ h => Option.noConfusion h)).2.2 rfl rfl (by decide)⟩

/-! ### Claim C10: quota consumed up front, counters monotone -/

/-- C10: in live mode, once the quota check admits a call (cold cache), the
first side effect of each rate-limited operation is the `recordCall` — the
counter increment plus its persistence happen before the token exchange and
the endpoint call — and the final quota state equals
`recordCall (canMakeCall now quota).1` in *every* environment, i.e. even
when the token acquisition or the live call subsequently fails, exactly one
quota unit is consumed; moreover `recordCall` only increments both
counters, `canMakeCall` never changes `callsToday` and either preserves
`callsThisMinute` or resets it to 0 (window reset), and `resetDailyCount`
zeroes everything. -/
theorem quota_consumed_before_live_call :
    (∀ env st origin destination oneWay, env.mockMode = false → origin ≠ destination →
      ((canMakeCall env.now st.quota).2).isAllowed = true →
      (getFlightCheapestDates env st none origin destination oneWay).events.head?
          = some Event.recordCallEvent
        ∧ (getFlightCheapestDates env st none origin destination oneWay).state.quota
          = recordCall (canMakeCall env.now st.quota).1)
    ∧ (∀ env st origin maxPrice oneWay, env.mockMode = false →
        ((canMakeCall env.now st.quota).2).isAllowed = true →
        (getFlightInspiration env st none origin maxPrice oneWay).events.head?
            = some Event.recordCallEvent
          ∧ (getFlightInspiration env st none origin maxPrice oneWay).state.quota
            = recordCall (canMakeCall env.now st.quota).1)
    ∧ (∀ env st query, env.mockMode = false → ¬ query.length < 2 →
        ((canMakeCall env.now st.quota).2).isAllowed = true →
        (getAirportSuggestions env st none query).events.head? = some Event.recordCallEvent
          ∧ (getAirportSuggestions env st none query).state.quota
            = recordCall (canMakeCall env.now st.quota).1)
    ∧ (∀ s, (recordCall s).callsToday = s.callsToday + 1
        ∧ (recordCall s).callsThisMinute = s.callsThisMinute + 1)
    ∧ (∀ now s, (canMakeCall now s).1.callsToday = s.callsToday
        ∧ ((canMakeCall now s).1.callsThisMinute = s.callsThisMinute
          ∨ (canMakeCall now s).1.callsThisMinute = 0))
    ∧ (∀ now, resetDailyCount now = ⟨0, 0, now⟩) := by
  refine ⟨?_, ?_, ?_, ?_, ?_, fun now => rfl⟩
  · intro env st origin destination oneWay hm hne hallow
    unfold getFlightCheapestDates
    rw [if_neg hne, hm, hallow]
    refine ⟨?_, ?_⟩ <;> (repeat' split) <;> first | rfl | simp_all
  · intro env st origin maxPrice oneWay hm hallow
    unfold getFlightInspiration
    rw [hm, hallow]
    refine ⟨?_, ?_⟩ <;> (repeat' split) <;> first | rfl | simp_all
  · intro env st query hm hq hallow
    unfold getAirportSuggestions
    rw [if_neg hq, hm, hallow]
    refine ⟨?_, ?_⟩ <;> (repeat' split) <;> first | rfl | simp_all
  · intro s
    exact ⟨rfl, rfl⟩
  · intro now s
    refine ⟨rlReset_callsToday now s, ?_⟩
    show (rlReset now s).callsThisMinute = s.callsThisMinute ∨ (rlReset now s).callsThisMinute = 0
    unfold rlReset
    split
    · right; rfl
    · left; rfl

/-- C10 witness: the token-failing live environment still consumes exactly
one quota unit, recorded before the (failing) token exchange. -/
theorem quota_consumed_before_live_call_witness :
    ((getFlightCheapestDates envTokenFailure freshState none "JFK" "LAX" false).events.head?
        = some Event.recordCallEvent
      ∧ (getFlightCheapestDates envTokenFailure freshState none "JFK" "LAX" false).state.quota
        = recordCall (canMakeCall envTokenFailure.now freshState.quota).1)
    ∧ (recordCall ⟨0, 0, 0⟩).callsToday = 0 + 1
    ∧ ((canMakeCall 70000 ⟨3, 7, 0⟩).1.callsThisMinute = 7
        ∨ (canMakeCall 70000 ⟨3, 7, 0⟩).1.callsThisMinute = 0) :=
  ⟨quota_consumed_before_live_call.1 envTokenFailure freshState "JFK" "LAX" false rfl
      (by decide) (by decide),
   (quota_consumed_before_live_call.2.2.2.1 ⟨0, 0, 0⟩).1,
   (quota_consumed_before_live_call.2.2.2.2.1 70000 ⟨3, 7, 0⟩).2⟩

end FlightSearch
